import Mathlib

/-!
Verification development for the serial-over-tcp toolkit: a shallow
embedding of the client reconnect state machine, the server peer
registry and broadcast loop, the pseudo-device path validation and
teardown logic, and the echo-variant relay step, with theorems checking
the natural-language specification against the code.
-/

namespace SerialTCP

/-! ## Client reconnect state machine (serial_tcp_client.py, SerialTCPClient) -/

/-- The mutable fields of `SerialTCPClient` that the reconnection logic in
`_handle_connection_loss` / `_do_reconnection` reads and writes.
`reconnect_delay` is the base backoff delay (constructor default 1.0);
`max_reconnect_attempts` defaults to 5.  `shutdown` models
`shutdown_event.is_set()` and `deviceValid` the outcome of
`_verify_virtual_device`. -/
structure ClientState where
  running : Bool
  reconnect_attempts : Nat
  max_reconnect_attempts : Nat
  reconnect_delay : Rat
  reconnection_in_progress : Bool
  shutdown : Bool
  deviceValid : Bool
deriving DecidableEq, Repr

/-- Observable effects of one invocation of the reconnection logic:
the delay passed to `shutdown_event.wait` (if any) and whether
`connect_to_server` was invoked. -/
structure ReconnEffects where
  waited : Option Rat
  connectAttempted : Bool
deriving DecidableEq, Repr

/-- `SerialTCPClient._do_reconnection`: increment `reconnect_attempts`; if it
is within `max_reconnect_attempts`, wait
`min(reconnect_delay * 2^(reconnect_attempts-1), 30)` (abandoning the
sequence if shutdown fires during the wait), then call
`connect_to_server` (which resets the counter to 0 on success); on a
successful connect, verify the virtual device and stop the client if
invalid.  If the counter exceeds the maximum, set `running := false`
without attempting a connect. -/
def doReconnection (s : ClientState) (connectSucceeds : Bool) :
    ClientState × ReconnEffects :=
  let s1 := { s with reconnect_attempts := s.reconnect_attempts + 1 }
  if s1.reconnect_attempts ≤ s1.max_reconnect_attempts then
    let delay := min (s1.reconnect_delay * 2 ^ (s1.reconnect_attempts - 1)) 30
    if s1.shutdown then
      (s1, ⟨some delay, false⟩)
    else if connectSucceeds then
      let s2 := { s1 with reconnect_attempts := 0 }
      if s2.deviceValid then
        (s2, ⟨some delay, true⟩)
      else
        ({ s2 with running := false }, ⟨some delay, true⟩)
    else
      (s1, ⟨some delay, true⟩)
  else
    ({ s1 with running := false }, ⟨none, false⟩)

/-- `SerialTCPClient._handle_connection_loss`: return immediately if the
client is not running or a reconnection is already in progress;
otherwise run `_do_reconnection` under the in-progress guard. -/
def handleConnectionLoss (s : ClientState) (connectSucceeds : Bool) :
    ClientState × ReconnEffects :=
  if ¬ s.running then
    (s, ⟨none, false⟩)
  else if s.reconnection_in_progress then
    (s, ⟨none, false⟩)
  else
    let r := doReconnection { s with reconnection_in_progress := true }
      connectSucceeds
    ({ r.1 with reconnection_in_progress := false }, r.2)

/-- The initial reconnect-relevant state of a freshly started client with
`max_reconnect_attempts` overridden to `m`. -/
def startedClient (m : Nat) : ClientState :=
  { running := true, reconnect_attempts := 0, max_reconnect_attempts := m
    reconnect_delay := 1, reconnection_in_progress := false
    shutdown := false, deviceValid := true }

/-! ## Server peer registry and broadcast (serial_tcp_server.py) -/

/-- Network peers are identified by their socket handle. -/
abbrev Peer := Nat

/-- Python's `list.remove`: delete the first occurrence of `a`.  The code
only calls it after checking membership, so the missing-element case
never raises here. -/
def listRemove : List Peer → Peer → List Peer
  | [], _ => []
  | x :: xs, a => if x = a then xs else x :: listRemove xs a

/-- The send phase of the broadcast in
`SerialToNetworkBridge.serial_to_network_thread`: iterate over
`clients_copy` (a snapshot of `self.clients` taken under
`clients_lock`), sending the chunk to each; a peer whose `send` raises
is appended to `disconnected_clients` instead.  Returns the peers that
were sent the chunk and the disconnected list, in iteration order. -/
def broadcastSendPhase (clientsCopy : List Peer) (sendFails : Peer → Bool) :
    List Peer × List Peer :=
  match clientsCopy with
  | [] => ([], [])
  | c :: rest =>
    let r := broadcastSendPhase rest sendFails
    if sendFails c then (r.1, c :: r.2) else (c :: r.1, r.2)

/-- The eviction phase of the broadcast: for each collected disconnected
peer, under `clients_lock` remove it from `self.clients` if still
present, and close its socket.  Returns the new registry and the
sockets closed, in iteration order. -/
def broadcastEvictPhase (clients : List Peer) (disconnected : List Peer) :
    List Peer × List Peer :=
  match disconnected with
  | [] => (clients, [])
  | c :: rest =>
    let clients1 := if c ∈ clients then listRemove clients c else clients
    let r := broadcastEvictPhase clients1 rest
    (r.1, c :: r.2)

/-- One broadcast of a nonempty serial chunk in
`serial_to_network_thread`: snapshot the registry under the lock, send
to every snapshot member without holding the lock, then evict the
failed peers in a single locked batch.  Returns (peers sent the chunk,
new registry, sockets closed). -/
def serialBroadcast (clients : List Peer) (sendFails : Peer → Bool) :
    List Peer × List Peer × List Peer :=
  let clientsCopy := clients
  let sd := broadcastSendPhase clientsCopy sendFails
  let ev := broadcastEvictPhase clients sd.2
  (sd.1, ev.1, ev.2)

/-! ## Device path validation (`VirtualSerialDevice._validate_device_path`,
identical in serial_tcp_client.py and virtual_serial_echo.py) -/

/-- The non-root components of `pathlib.PurePosixPath(path).parts`: split
on `/`, dropping empty segments and bare `.` segments, matching
pathlib's normalization.  For an absolute path, `parts` additionally
holds the root `/` in front, which is never `..` and never the last
component of a multi-part path in a way that matters here. -/
def pathSegments (path : String) : List String :=
  (path.splitOn "/").filter (fun seg => !(seg == "" || seg == "."))

/-- `PurePosixPath.is_absolute` for POSIX paths: the string starts with
`/`. -/
def isAbsolutePath (path : String) : Bool :=
  path.startsWith "/"

/-- `Path(path).parent`, represented as (absolute?, components): drop the
last component, keeping the root. -/
def parentDir (path : String) : Bool × List String :=
  (isAbsolutePath path, (pathSegments path).dropLast)

/-- The filesystem facts `_validate_device_path` consults: whether a
directory exists (`Path.exists`) and whether it is writable
(`os.access(parent, os.W_OK)`). -/
structure PathFS where
  dirIsThere : Bool × List String → Bool
  dirWritable : Bool × List String → Bool

/-- `VirtualSerialDevice._validate_device_path`: reject non-absolute
paths, then paths with a `..` component, then paths whose parent
directory does not exist, then paths whose parent is not writable;
accept otherwise. -/
def validateDevicePath (fs : PathFS) (path : String) : Bool :=
  if ¬ isAbsolutePath path then false
  else if ".." ∈ pathSegments path then false
  else if ¬ fs.dirIsThere (parentDir path) then false
  else if ¬ fs.dirWritable (parentDir path) then false
  else true

/-- Modelled from the spec's wording of the acceptance condition, for
comparison with `validateDevicePath`: the path is absolute, contains
no parent-traversal segment, and its parent directory exists and is
writable. -/
def specPathAccepted (fs : PathFS) (path : String) : Prop :=
  isAbsolutePath path = true ∧ ".." ∉ pathSegments path ∧
  fs.dirIsThere (parentDir path) = true ∧
  fs.dirWritable (parentDir path) = true

/-! ## Relay-loop handling of a network receive -/

/-- What the client's TCP→virtual relay does with one `recv` result. -/
inductive ClientRecvAction where
  | callHandleConnectionLoss
  | writeVirtualDevice (data : List Nat)
deriving DecidableEq, Repr

/-- The body of `SerialTCPClient.tcp_to_virtual_thread` once `select`
reports the TCP socket readable and `recv(4096)` returns `data`: an
empty result logs "TCP connection closed by server" and calls
`_handle_connection_loss` (the reconnect sequence); otherwise `data`
is written to the virtual-device master descriptor. -/
def tcpToVirtualRecvStep (data : List Nat) : ClientRecvAction :=
  if data = [] then .callHandleConnectionLoss
  else .writeVirtualDevice data

/-- What the server's per-peer receive loop does with one `recv`
result. -/
inductive ServerRecvAction where
  | breakAndRemovePeer
  | writeSerial (data : List Nat)
deriving DecidableEq, Repr

/-- The body of `SerialToNetworkBridge.handle_client` once `select`
reports the peer socket readable and `recv(1024)` returns `data`: an
empty result breaks the per-peer loop, after which the `finally`
block removes the peer from the registry and closes its socket;
otherwise `data` is written to the serial connection. -/
def handleClientRecvStep (data : List Nat) : ServerRecvAction :=
  if data = [] then .breakAndRemovePeer
  else .writeSerial data

/-- The `finally` block of `handle_client`: under `clients_lock`, remove
the peer from `self.clients` if present, then close its socket.
Returns the new registry and the closed socket. -/
def handleClientTeardown (clients : List Peer) (sock : Peer) :
    List Peer × List Peer :=
  (if sock ∈ clients then listRemove clients sock else clients, [sock])

/-! ## Server connection-limit gate (`handle_client`, lines 93-101) -/

/-- Outcome of the connection-limit check at the top of
`handle_client`. -/
structure RegisterResult where
  clients : List Peer
  accepted : Bool
  closedImmediately : Bool
deriving DecidableEq, Repr

/-- The connection-limit gate at the top of
`SerialToNetworkBridge.handle_client`, run under `clients_lock`: when
the registry already holds `max_clients` (constructor default 10)
peers, the new socket is closed at once and never appended; otherwise
it is appended to `self.clients`. -/
def handleClientRegister (clients : List Peer) (maxClients : Nat)
    (sock : Peer) : RegisterResult :=
  if maxClients ≤ clients.length then
    ⟨clients, false, true⟩
  else
    ⟨clients ++ [sock], true, false⟩

/-- The registry after a sequence of accepted sockets has gone through
the connection-limit gate, starting from the empty registry the
bridge is constructed with. -/
def registerAll (socks : List Peer) (maxClients : Nat) : List Peer :=
  socks.foldl
    (fun cs sock => (handleClientRegister cs maxClients sock).clients) []

/-! ## Pseudo-device teardown (client `VirtualSerialDevice.close`, echo
`VirtualSerialDevice.cleanup`) -/

/-- OS calls performed during teardown, recorded in order. -/
inductive FSOp where
  | unlinkPath (p : Nat)
  | chmodPath (p : Nat)
  | closeFd (fd : Nat)
deriving DecidableEq, Repr

/-- A finite model of the filesystem state teardown touches: which paths
currently carry a file or link, on which paths `os.unlink` is
permitted (absence models `EACCES`), and on which `os.chmod`
succeeds. -/
structure FS where
  existing : List Nat
  unlinkOk : List Nat
  chmodOk : List Nat
deriving DecidableEq, Repr

/-- Outcome of an `os.unlink` call. -/
inductive UnlinkResult where
  | ok
  | noEnt
  | eAcces
deriving DecidableEq, Repr

/-- `os.unlink`: removes the path when it exists and removal is
permitted, raises `ENOENT` when absent and `EACCES` when not
permitted. -/
def fsUnlink (fs : FS) (p : Nat) : FS × UnlinkResult :=
  if p ∈ fs.existing then
    if p ∈ fs.unlinkOk then
      ({ fs with existing := listRemove fs.existing p }, .ok)
    else (fs, .eAcces)
  else (fs, .noEnt)

/-- `os.chmod(path, 0o777)` as the echo cleanup uses it: on success the
subsequent unlink of the path is permitted. -/
def fsChmod (fs : FS) (p : Nat) : FS × Bool :=
  if p ∈ fs.chmodOk then
    ({ fs with unlinkOk := p :: fs.unlinkOk }, true)
  else (fs, false)

/-- One guarded link removal in the client's `VirtualSerialDevice.close`:
`if path and (os.path.exists(path) or os.path.islink(path))`, attempt
`os.unlink`, ignoring `ENOENT` and logging any other error. -/
def closeLinkStep (fs : FS) (path : Option Nat) : FS × List FSOp :=
  match path with
  | some p =>
    if p ∈ fs.existing then ((fsUnlink fs p).1, [FSOp.unlinkPath p])
    else (fs, [])
  | none => (fs, [])

/-- One guarded descriptor close in `VirtualSerialDevice.close`:
`os.close` inside a try that swallows `EBADF`, then the field is set
to `None`. -/
def closeFdStep (fd : Option Nat) : Option Nat × List FSOp :=
  match fd with
  | some n => (none, [FSOp.closeFd n])
  | none => (none, [])

/-- The attribute state of the client's `VirtualSerialDevice` that
`close` reads and writes. -/
structure DeviceState where
  device_path : Option Nat
  temp_link_path : Option Nat
  master_fd : Option Nat
  slave_fd : Option Nat
deriving DecidableEq, Repr

/-- The client's `VirtualSerialDevice.close`: remove the published
symlink if present, remove a leftover temporary link if present, then
close `master_fd` and `slave_fd` (setting each to `None`), swallowing
already-closed errors. -/
def deviceClose (fs : FS) (d : DeviceState) : FS × DeviceState × List FSOp :=
  let s1 := closeLinkStep fs d.device_path
  let s2 := closeLinkStep s1.1 d.temp_link_path
  let m := closeFdStep d.master_fd
  let sl := closeFdStep d.slave_fd
  (s2.1, { d with master_fd := m.1, slave_fd := sl.1 },
   s1.2 ++ s2.2 ++ m.2 ++ sl.2)

/-- The link removal in the echo variant's
`VirtualSerialDevice.cleanup`: if the device path exists, unlink it;
on `EACCES`, chmod the path to `0o777` and retry the unlink once. -/
def echoUnlinkStep (fs : FS) (p : Nat) : FS × List FSOp :=
  if p ∈ fs.existing then
    let u := fsUnlink fs p
    match u.2 with
    | .eAcces =>
      let c := fsChmod u.1 p
      if c.2 then
        ((fsUnlink c.1 p).1,
         [FSOp.unlinkPath p, FSOp.chmodPath p, FSOp.unlinkPath p])
      else (c.1, [FSOp.unlinkPath p, FSOp.chmodPath p])
    | _ => (u.1, [FSOp.unlinkPath p])
  else (fs, [])

/-- The attribute state of the echo variant's `VirtualSerialDevice`
that `cleanup` reads and writes. -/
structure EchoState where
  device_path : Nat
  temp_link_path : Option Nat
  device_created : Bool
deriving DecidableEq, Repr

/-- The echo variant's `VirtualSerialDevice.cleanup`: return immediately
unless `device_created`; otherwise remove the device link (with the
permission-widen-then-retry step), remove a leftover temporary link,
and clear `device_created`. -/
def echoCleanup (fs : FS) (e : EchoState) : FS × EchoState × List FSOp :=
  if e.device_created = false then (fs, e, [])
  else
    let s1 := echoUnlinkStep fs e.device_path
    let s2 := closeLinkStep s1.1 e.temp_link_path
    (s2.1, { e with device_created := false }, s1.2 ++ s2.2)

/-! ## Bridge shutdown (`SerialTCPClient.stop`,
`SerialToNetworkBridge.stop`) -/

/-- OS-level calls performed during `stop`, recorded in order. -/
inductive StopOp where
  | shutdownSocket (n : Nat)
  | closeSocket (n : Nat)
  | closeSerial
  | deviceOp (op : FSOp)
deriving DecidableEq, Repr

/-- The attribute state of `SerialTCPClient` that `stop` reads and
writes (the thread joins only wait and are not modelled as state). -/
structure ClientBridgeState where
  running : Bool
  shutdown : Bool
  tcp_socket : Option Nat
  virtual_device : Option DeviceState
deriving DecidableEq, Repr

/-- `SerialTCPClient.stop`: clear `running`, set the shutdown event,
join the worker threads (state-irrelevant), then shut down and close
the TCP socket if present (setting it to `None`) and close the
virtual device if present (delegating to `VirtualSerialDevice.close`
and setting the field to `None`). -/
def clientStop (fs : FS) (s : ClientBridgeState) :
    FS × ClientBridgeState × List StopOp :=
  let s1 := { s with running := false, shutdown := true }
  let sockStep : Option Nat × List StopOp :=
    match s1.tcp_socket with
    | some n => (none, [StopOp.shutdownSocket n, StopOp.closeSocket n])
    | none => (none, [])
  let devStep : FS × Option DeviceState × List StopOp :=
    match s1.virtual_device with
    | some d =>
      let r := deviceClose fs d
      (r.1, none, r.2.2.map StopOp.deviceOp)
    | none => (fs, none, [])
  (devStep.1,
   { s1 with tcp_socket := sockStep.1, virtual_device := devStep.2.1 },
   sockStep.2 ++ devStep.2.2)

/-- The attribute state of `SerialToNetworkBridge` that `stop` reads and
writes; `serial_conn` is `some isOpen` while the pyserial object is
held. -/
structure ServerBridgeState where
  running : Bool
  shutdown : Bool
  server_socket : Option Nat
  clients : List Peer
  serial_conn : Option Bool
deriving DecidableEq, Repr

/-- `SerialToNetworkBridge.stop`: clear `running`, set the shutdown
event, close the listening socket if present (setting it to `None`),
close every registered peer socket and clear the registry, join
client threads (state-irrelevant), and close the serial connection
when it is held and open (setting it to `None`). -/
def serverStop (s : ServerBridgeState) : ServerBridgeState × List StopOp :=
  let s1 := { s with running := false, shutdown := true }
  let sockStep : Option Nat × List StopOp :=
    match s1.server_socket with
    | some n => (none, [StopOp.closeSocket n])
    | none => (none, [])
  let clientOps := s1.clients.map StopOp.closeSocket
  let serialStep : Option Bool × List StopOp :=
    match s1.serial_conn with
    | some true => (none, [StopOp.closeSerial])
    | o => (o, [])
  let s2 := { s1 with server_socket := sockStep.1 }
  let s3 := { s2 with clients := [] }
  ({ s3 with serial_conn := serialStep.1 },
   sockStep.2 ++ clientOps ++ serialStep.2)

/-! ## Client startup and raw-mode configuration
(`VirtualSerialDevice.create_virtual_device`, `SerialTCPClient.start`) -/

/-- The environment outcomes `create_virtual_device` can encounter:
whether `pty.openpty()` raises, whether a pre-existing non-symlink
file occupies the requested device path, whether symlink creation
fails, and whether the raw-mode `termios` block raises. -/
structure CreateEnv where
  ptyOpenFails : Bool
  existingPathIsRegularFile : Bool
  symlinkFails : Bool
  rawModeFails : Bool
deriving DecidableEq, Repr

/-- The client's `VirtualSerialDevice.create_virtual_device`: allocate
the pty pair (failure is fatal); with a requested device path, refuse
to clobber an existing non-symlink file, and fall back to the native
slave name when symlink creation fails; then apply the raw-mode
`termios` settings, where a `termios.error` is caught, logged as a
warning, and creation continues ("Continue anyway, device might still
work").  Returns whether creation reported success. -/
def create_virtual_device (device_path : Option Nat) (env : CreateEnv) :
    Bool :=
  if env.ptyOpenFails then false
  else
    match device_path with
    | some _ =>
      if env.existingPathIsRegularFile then false
      else true
    | none => true

/-- `SerialTCPClient.start` up to the launch of the data threads: fail
if device setup fails, then if the first connect fails; otherwise set
`running := true`.  Returns (result of `start`, `running`). -/
def clientStart (device_path : Option Nat) (env : CreateEnv)
    (connectOk : Bool) : Bool × Bool :=
  if ¬ create_virtual_device device_path env then (false, false)
  else if ¬ connectOk then (false, false)
  else (true, true)

/-! ## Echo relay step (`VirtualSerialDevice.echo_handler`) -/

/-- The byte count passed to `os.read` in `echo_handler`. -/
def ECHO_READ_LIMIT : Nat := 1024

/-- One handled chunk in the echo variant's `echo_handler`: `select`
reported the master readable and `os.read(master_fd, 1024)` returned
`chunk`.  A falsy (empty) chunk does nothing; otherwise a chunk
longer than 4096 bytes would be truncated with a warning, and the
(possibly truncated) data is passed unchanged to `os.write` on the
master (a partial write is logged but the buffer is never altered).
Returns the buffer written back, if any. -/
def echoStep (chunk : List Nat) : Option (List Nat) :=
  if chunk = [] then none
  else
    let data := if chunk.length > 4096 then chunk.take 4096 else chunk
    some data

end SerialTCP

/-! ## Theorems -/

namespace SerialTCP

/-- C1: for every reconnect attempt number `n` with
`1 ≤ n ≤ max_reconnect_attempts`, the delay the reconnection sequence
passes to its cancellable wait is exactly
`min(reconnect_delay * 2^(n-1), 30)`; with the constructor default
`reconnect_delay = 1.0` this is `min(2^(n-1), 30)`. -/
theorem reconnect_backoff_delay (s : ClientState) (connectSucceeds : Bool)
    (n : Nat) (h1 : 1 ≤ n) (h2 : n ≤ s.max_reconnect_attempts)
    (hat : s.reconnect_attempts = n - 1) :
    (doReconnection s connectSucceeds).2.waited =
      some (min (s.reconnect_delay * 2 ^ (n - 1)) 30) ∧
    (s.reconnect_delay = 1 →
      (doReconnection s connectSucceeds).2.waited =
        some (min ((2 : Rat) ^ (n - 1)) 30)) := by
  have hn : n - 1 + 1 = n := by omega
  unfold doReconnection
  simp only [hat, hn]
  rw [if_pos h2]
  constructor
  · rcases Bool.eq_false_or_eq_true s.shutdown with hs | hs <;>
      rcases Bool.eq_false_or_eq_true connectSucceeds with hc | hc <;>
      rcases Bool.eq_false_or_eq_true s.deviceValid with hd | hd <;>
      simp [hs, hc, hd]
  · intro hbase
    rcases Bool.eq_false_or_eq_true s.shutdown with hs | hs <;>
      rcases Bool.eq_false_or_eq_true connectSucceeds with hc | hc <;>
      rcases Bool.eq_false_or_eq_true s.deviceValid with hd | hd <;>
      simp [hs, hc, hd, hbase]

/-- Witness for C1 at a concrete state: attempt number 3 of a default
client (`reconnect_delay = 1`, `max_reconnect_attempts = 5`) waits
`min(2^2, 30) = 4`. -/
theorem reconnect_backoff_delay_witness :
    (doReconnection
        { startedClient 5 with reconnect_attempts := 2 } false).2.waited =
      some (min ((1 : Rat) * 2 ^ (3 - 1)) 30) ∧
    ((1 : Rat) = 1 →
      (doReconnection
          { startedClient 5 with reconnect_attempts := 2 } false).2.waited =
        some (min ((2 : Rat) ^ (3 - 1)) 30)) :=
  reconnect_backoff_delay { startedClient 5 with reconnect_attempts := 2 }
    false 3 (by decide) (by decide) (by decide)

/-- C2: once the incremented reconnect attempt counter exceeds
`max_reconnect_attempts`, the reconnection sequence sets `running` to
`false` and performs no connect attempt; and in the concrete scenario
`max_reconnect_attempts = 2` with three consecutive connection losses
whose connect attempts fail, `reconnect_attempts` goes to 1, then 2
(each loss attempting a reconnect), and on the third loss the client
transitions to `running = false` without a further connect attempt. -/
theorem reconnect_exhaustion_stops_client (s : ClientState) (b : Bool)
    (hrun : s.running = true) (hprog : s.reconnection_in_progress = false)
    (hmax : s.max_reconnect_attempts < s.reconnect_attempts + 1) :
    ((handleConnectionLoss s b).1.running = false ∧
     (handleConnectionLoss s b).2.connectAttempted = false) ∧
    ((handleConnectionLoss (startedClient 2) false).1.reconnect_attempts = 1 ∧
     (handleConnectionLoss (startedClient 2) false).2.connectAttempted = true ∧
     (handleConnectionLoss (startedClient 2) false).1.running = true ∧
     (handleConnectionLoss
        (handleConnectionLoss (startedClient 2) false).1 false).1.reconnect_attempts = 2 ∧
     (handleConnectionLoss
        (handleConnectionLoss (startedClient 2) false).1 false).2.connectAttempted = true ∧
     (handleConnectionLoss
        (handleConnectionLoss (startedClient 2) false).1 false).1.running = true ∧
     (handleConnectionLoss
        (handleConnectionLoss
          (handleConnectionLoss (startedClient 2) false).1 false).1 false).1.running = false ∧
     (handleConnectionLoss
        (handleConnectionLoss
          (handleConnectionLoss (startedClient 2) false).1 false).1 false).2.connectAttempted
        = false) := by
  constructor
  · have hnle : ¬ (s.reconnect_attempts + 1 ≤ s.max_reconnect_attempts) := by
      omega
    simp [handleConnectionLoss, doReconnection, hrun, hprog, hnle]
  · decide

/-- Witness for C2 at a concrete state: a running client with
`max_reconnect_attempts = 2` whose counter is already 2 stops on the
next loss without attempting a connect. -/
theorem reconnect_exhaustion_stops_client_witness :
    ((handleConnectionLoss
        { startedClient 2 with reconnect_attempts := 2 } false).1.running = false ∧
     (handleConnectionLoss
        { startedClient 2 with reconnect_attempts := 2 } false).2.connectAttempted
        = false) :=
  (reconnect_exhaustion_stops_client
    { startedClient 2 with reconnect_attempts := 2 } false
    (by decide) (by decide) (by decide)).1

theorem listRemove_eq_erase (l : List Peer) (a : Peer) :
    listRemove l a = l.erase a := by
  induction l with
  | nil => rfl
  | cons x xs ih =>
    by_cases h : x = a <;> simp [listRemove, List.erase_cons, h, ih]

theorem broadcastSendPhase_eq_filter (l : List Peer) (f : Peer → Bool) :
    broadcastSendPhase l f =
      (l.filter (fun c => ! f c), l.filter f) := by
  induction l with
  | nil => rfl
  | cons x xs ih =>
    by_cases h : f x <;> simp [broadcastSendPhase, ih, List.filter_cons, h]

theorem filter_beq_of_nodup (l : List Peer) (k : Peer) (hnd : l.Nodup)
    (hk : k ∈ l) : l.filter (fun q => q == k) = [k] := by
  induction l with
  | nil => cases hk
  | cons x xs ih =>
    rcases List.nodup_cons.mp hnd with ⟨hx, hxs⟩
    by_cases h : x = k
    · subst h
      have : xs.filter (fun q => q == x) = [] := by
        rw [List.filter_eq_nil_iff]
        intro a ha
        simp only [beq_iff_eq]
        intro hax
        exact hx (hax ▸ ha)
      simp [List.filter_cons, this]
    · have hkxs : k ∈ xs := by
        rcases List.mem_cons.mp hk with h1 | h1
        · exact absurd h1.symm h
        · exact h1
      simp [List.filter_cons, h, ih hxs hkxs]

/-- C3: broadcast failure isolation.  With a duplicate-free registry and
`sendFails` holding exactly for peer `k ∈ clients`, every other peer is
still sent the chunk, `k` is not, the new registry is the old one with
the first (and only) occurrence of `k` removed — so `k` is removed
exactly once, the registry shrinks by exactly one — and exactly `k`'s
socket is closed, in one eviction batch after the snapshot sends. -/
theorem broadcast_isolates_failed_peer (clients : List Peer) (k : Peer)
    (hnd : clients.Nodup) (hk : k ∈ clients) :
    (∀ p ∈ clients, p ≠ k →
      p ∈ (serialBroadcast clients (fun q => q == k)).1) ∧
    k ∉ (serialBroadcast clients (fun q => q == k)).1 ∧
    (serialBroadcast clients (fun q => q == k)).2.1 = clients.erase k ∧
    k ∉ (serialBroadcast clients (fun q => q == k)).2.1 ∧
    (serialBroadcast clients (fun q => q == k)).2.1.length + 1 =
      clients.length ∧
    (serialBroadcast clients (fun q => q == k)).2.2 = [k] := by
  have hsend := broadcastSendPhase_eq_filter clients (fun q => q == k)
  have hfil := filter_beq_of_nodup clients k hnd hk
  have hbr : serialBroadcast clients (fun q => q == k) =
      (clients.filter (fun c => ! (c == k)), clients.erase k, [k]) := by
    unfold serialBroadcast
    simp only [hsend, hfil, broadcastEvictPhase, hk, if_true,
      listRemove_eq_erase]
  rw [hbr]
  refine ⟨?_, ?_, rfl, ?_, ?_, rfl⟩
  · intro p hp hpk
    simp [List.mem_filter, hp, hpk]
  · simp [List.mem_filter]
  · show k ∉ clients.erase k
    intro hmem
    exact absurd ((List.Nodup.mem_erase_iff hnd).mp hmem).1 (by simp)
  · show (clients.erase k).length + 1 = clients.length
    have := List.length_erase_of_mem hk
    have hpos : 0 < clients.length := List.length_pos.mpr
      (List.ne_nil_of_mem hk)
    omega

/-- Witness for C3 on a three-peer registry where peer 2 fails. -/
theorem broadcast_isolates_failed_peer_witness :
    (∀ p ∈ [1, 2, 3], p ≠ 2 →
      p ∈ (serialBroadcast [1, 2, 3] (fun q => q == 2)).1) ∧
    2 ∉ (serialBroadcast [1, 2, 3] (fun q => q == 2)).1 ∧
    (serialBroadcast [1, 2, 3] (fun q => q == 2)).2.1 =
      List.erase [1, 2, 3] 2 ∧
    2 ∉ (serialBroadcast [1, 2, 3] (fun q => q == 2)).2.1 ∧
    (serialBroadcast [1, 2, 3] (fun q => q == 2)).2.1.length + 1 =
      List.length [1, 2, 3] ∧
    (serialBroadcast [1, 2, 3] (fun q => q == 2)).2.2 = [2] :=
  broadcast_isolates_failed_peer [1, 2, 3] 2 (by decide) (by decide)

/-- C4: device-path validation accepts exactly the paths that are
absolute, contain no parent-traversal (`..`) segment, and whose parent
directory exists and is writable; every relative path, every path with
a `..` segment, and every path whose parent is missing or not writable
is rejected. -/
theorem validate_device_path_iff (fs : PathFS) (path : String) :
    validateDevicePath fs path = true ↔ specPathAccepted fs path := by
  unfold validateDevicePath specPathAccepted
  by_cases h1 : isAbsolutePath path <;>
    by_cases h2 : ".." ∈ pathSegments path <;>
      by_cases h3 : fs.dirIsThere (parentDir path) <;>
        by_cases h4 : fs.dirWritable (parentDir path) <;>
          simp [h1, h2, h3, h4]

/-- C5: a zero-length network receive is treated as connection loss on
both roles — the client calls its reconnect-sequence entry point, the
server breaks out to its peer-removal teardown — and a zero-byte chunk
is never forwarded to the virtual device or the serial endpoint; the
teardown removes the peer from the registry and closes its socket. -/
theorem zero_length_read_is_connection_loss :
    (∀ data : List Nat,
      tcpToVirtualRecvStep data = .callHandleConnectionLoss ↔ data = []) ∧
    (∀ data : List Nat,
      handleClientRecvStep data = .breakAndRemovePeer ↔ data = []) ∧
    (∀ data : List Nat, tcpToVirtualRecvStep data ≠ .writeVirtualDevice []) ∧
    (∀ data : List Nat, handleClientRecvStep data ≠ .writeSerial []) ∧
    (∀ (clients : List Peer) (sock : Peer), clients.Nodup → sock ∈ clients →
      sock ∉ (handleClientTeardown clients sock).1 ∧
      (handleClientTeardown clients sock).2 = [sock]) := by
  refine ⟨?_, ?_, ?_, ?_, ?_⟩
  · intro data
    by_cases h : data = [] <;> simp [tcpToVirtualRecvStep, h]
  · intro data
    by_cases h : data = [] <;> simp [handleClientRecvStep, h]
  · intro data
    by_cases h : data = [] <;> simp [tcpToVirtualRecvStep, h]
  · intro data
    by_cases h : data = [] <;> simp [handleClientRecvStep, h]
  · intro clients sock hnd hmem
    refine ⟨?_, rfl⟩
    simp only [handleClientTeardown, hmem, if_true, listRemove_eq_erase]
    intro hin
    exact absurd ((List.Nodup.mem_erase_iff hnd).mp hin).1 (by simp)

/-- C6: the connection-limit gate keeps the registry at or below
`max_clients`: a registry already at the limit rejects the connection,
closing it immediately without registering it, and any sequence of
accepted sockets run through the gate leaves at most `maxClients`
registered peers. -/
theorem max_clients_gate_bounds_registry (clients : List Peer)
    (maxClients : Nat) (sock : Peer)
    (h : clients.length ≤ maxClients) :
    (handleClientRegister clients maxClients sock).clients.length ≤
      maxClients ∧
    (clients.length = maxClients →
      handleClientRegister clients maxClients sock =
        ⟨clients, false, true⟩) ∧
    (∀ (socks : List Peer) (m : Nat), (registerAll socks m).length ≤ m) := by
  refine ⟨?_, ?_, ?_⟩
  · unfold handleClientRegister
    by_cases hc : maxClients ≤ clients.length
    · simpa [hc]
    · simp only [hc, if_false]
      simp only [List.length_append, List.length_singleton]
      omega
  · intro he
    unfold handleClientRegister
    simp [he]
  · intro socks m
    have key : ∀ (l : List Peer) (cs : List Peer), cs.length ≤ m →
        (l.foldl
          (fun cs sock => (handleClientRegister cs m sock).clients)
          cs).length ≤ m := by
      intro l
      induction l with
      | nil => intro cs hcs; simpa using hcs
      | cons x xs ih =>
        intro cs hcs
        simp only [List.foldl_cons]
        apply ih
        unfold handleClientRegister
        by_cases hc : m ≤ cs.length
        · simpa [hc]
        · simp only [hc, if_false]
          simp only [List.length_append, List.length_singleton]
          omega
    exact key socks [] (by simp)

/-- Witness for C6: a one-peer registry with `max_clients = 1` rejects
socket 9 and stays within the bound. -/
theorem max_clients_gate_bounds_registry_witness :
    (handleClientRegister [7] 1 9).clients.length ≤ 1 ∧
    (List.length [7] = 1 →
      handleClientRegister [7] 1 9 = ⟨[7], false, true⟩) ∧
    (∀ (socks : List Peer) (m : Nat), (registerAll socks m).length ≤ m) :=
  max_clients_gate_bounds_registry [7] 1 9 (by decide)

theorem closeFdStep_fst (fd : Option Nat) : (closeFdStep fd).1 = none := by
  cases fd <;> rfl

theorem closeLinkStep_of_not_mem (fs : FS) (path : Option Nat)
    (h : ∀ p, path = some p → p ∉ fs.existing) :
    closeLinkStep fs path = (fs, []) := by
  cases path with
  | none => rfl
  | some p => simp [closeLinkStep, h p rfl]

theorem closeLinkStep_mono (fs : FS) (path : Option Nat) (q : Nat)
    (h : q ∉ fs.existing) : q ∉ (closeLinkStep fs path).1.existing := by
  cases path with
  | none => exact h
  | some p =>
    by_cases hp : p ∈ fs.existing
    · by_cases hok : p ∈ fs.unlinkOk
      · simp only [closeLinkStep, hp, if_true, fsUnlink, hok,
          listRemove_eq_erase]
        intro hq
        exact h (List.mem_of_mem_erase hq)
      · simpa [closeLinkStep, hp, fsUnlink, hok] using h
    · simpa [closeLinkStep, hp] using h

theorem closeLinkStep_removes (fs : FS) (p : Nat)
    (hnd : fs.existing.Nodup) (hok : p ∈ fs.unlinkOk) :
    p ∉ (closeLinkStep fs (some p)).1.existing := by
  by_cases hp : p ∈ fs.existing
  · simp only [closeLinkStep, hp, if_true, fsUnlink, hok,
      listRemove_eq_erase]
    intro hq
    exact absurd ((List.Nodup.mem_erase_iff hnd).mp hq).1 (by simp)
  · simp [closeLinkStep, hp]

theorem closeLinkStep_nodup (fs : FS) (path : Option Nat)
    (hnd : fs.existing.Nodup) : (closeLinkStep fs path).1.existing.Nodup := by
  cases path with
  | none => exact hnd
  | some p =>
    by_cases hp : p ∈ fs.existing
    · by_cases hok : p ∈ fs.unlinkOk
      · simp only [closeLinkStep, hp, if_true, fsUnlink, hok,
          listRemove_eq_erase]
        exact hnd.erase p
      · simpa [closeLinkStep, hp, fsUnlink, hok] using hnd
    · simpa [closeLinkStep, hp] using hnd

theorem closeLinkStep_unlinkOk (fs : FS) (path : Option Nat) :
    (closeLinkStep fs path).1.unlinkOk = fs.unlinkOk := by
  cases path with
  | none => rfl
  | some p =>
    by_cases hp : p ∈ fs.existing
    · by_cases hok : p ∈ fs.unlinkOk <;>
        simp [closeLinkStep, hp, fsUnlink, hok]
    · simp [closeLinkStep, hp]

theorem deviceClose_snd_state (fs : FS) (d : DeviceState) :
    (deviceClose fs d).2.1 =
      { d with master_fd := none, slave_fd := none } := by
  simp [deviceClose, closeFdStep_fst]

theorem deviceClose_fst (fs : FS) (d : DeviceState) :
    (deviceClose fs d).1 =
      (closeLinkStep (closeLinkStep fs d.device_path).1
        d.temp_link_path).1 := rfl

theorem echoCleanup_of_not_created (fs : FS) (e : EchoState)
    (h : e.device_created = false) : echoCleanup fs e = (fs, e, []) := by
  simp [echoCleanup, h]

/-- C7: teardown of the pseudo-device is idempotent.  For the client's
`close`, when the first call's link removals are permitted, it leaves
both descriptors closed (`None`) and the published link gone, and a
second call changes nothing and performs no OS call.  For the echo
variant's `cleanup`, a second call after any completed first call is a
no-op, and a permission failure on the link removal is tolerated by a
chmod-widen-then-retry that still removes the link. -/
theorem pseudo_device_teardown_idempotent (fs : FS) (d : DeviceState)
    (efs : FS) (e : EchoState)
    (hnd : fs.existing.Nodup)
    (hp : ∀ p, d.device_path = some p → p ∈ fs.unlinkOk)
    (ht : ∀ t, d.temp_link_path = some t → t ∈ fs.unlinkOk) :
    (deviceClose (deviceClose fs d).1 (deviceClose fs d).2.1 =
      ((deviceClose fs d).1, (deviceClose fs d).2.1, [])) ∧
    (deviceClose fs d).2.1.master_fd = none ∧
    (deviceClose fs d).2.1.slave_fd = none ∧
    (∀ p, d.device_path = some p → p ∉ (deviceClose fs d).1.existing) ∧
    (echoCleanup (echoCleanup efs e).1 (echoCleanup efs e).2.1 =
      ((echoCleanup efs e).1, (echoCleanup efs e).2.1, [])) ∧
    (efs.existing.Nodup → e.device_created = true →
      e.device_path ∈ efs.existing → e.device_path ∉ efs.unlinkOk →
      e.device_path ∈ efs.chmodOk →
        e.device_path ∉ (echoCleanup efs e).1.existing ∧
        FSOp.chmodPath e.device_path ∈ (echoCleanup efs e).2.2) := by
  have hnotp : ∀ p, d.device_path = some p →
      p ∉ (deviceClose fs d).1.existing := by
    intro p hdp
    rw [deviceClose_fst]
    apply closeLinkStep_mono
    rw [hdp]
    exact closeLinkStep_removes fs p hnd (hp p hdp)
  have hnott : ∀ t, d.temp_link_path = some t →
      t ∉ (deviceClose fs d).1.existing := by
    intro t htl
    rw [deviceClose_fst, htl]
    apply closeLinkStep_removes _ t (closeLinkStep_nodup fs _ hnd)
    rw [closeLinkStep_unlinkOk]
    exact ht t htl
  refine ⟨?_, ?_, ?_, hnotp, ?_, ?_⟩
  · rw [deviceClose_snd_state]
    have h1 : closeLinkStep (deviceClose fs d).1 d.device_path =
        ((deviceClose fs d).1, []) :=
      closeLinkStep_of_not_mem _ _ hnotp
    have h2 : closeLinkStep (deviceClose fs d).1 d.temp_link_path =
        ((deviceClose fs d).1, []) :=
      closeLinkStep_of_not_mem _ _ hnott
    rw [deviceClose_fst] at h1 h2
    simp [deviceClose, closeFdStep, h1, h2]
  · rw [deviceClose_snd_state]
  · rw [deviceClose_snd_state]
  · have hc2 : (echoCleanup efs e).2.1.device_created = false := by
      by_cases hc : e.device_created = false <;> simp [echoCleanup, hc]
    exact echoCleanup_of_not_created _ _ hc2
  · intro hend hcr hex hnok hch
    have hu : echoUnlinkStep efs e.device_path =
        ({ existing := listRemove efs.existing e.device_path
           unlinkOk := e.device_path :: efs.unlinkOk
           chmodOk := efs.chmodOk },
         [FSOp.unlinkPath e.device_path, FSOp.chmodPath e.device_path,
          FSOp.unlinkPath e.device_path]) := by
      simp [echoUnlinkStep, fsUnlink, fsChmod, hex, hnok, hch]
    have hpgone : e.device_path ∉
        (echoUnlinkStep efs e.device_path).1.existing := by
      rw [hu, listRemove_eq_erase]
      intro hq
      exact absurd ((List.Nodup.mem_erase_iff hend).mp hq).1 (by simp)
    have hcreated : ¬ (e.device_created = false) := by simp [hcr]
    constructor
    · simp only [echoCleanup, if_neg hcreated]
      exact closeLinkStep_mono _ _ _ hpgone
    · simp only [echoCleanup, if_neg hcreated]
      rw [hu]
      simp

/-- Witness for C7 on a concrete filesystem and device pair: the client
device publishes link 1 with leftover temp link 2, the echo device
owns link 5 whose unlink needs the chmod widen. -/
theorem pseudo_device_teardown_idempotent_witness :
    (deviceClose
        (deviceClose ⟨[1, 2], [1, 2], []⟩ ⟨some 1, some 2, some 10, some 11⟩).1
        (deviceClose ⟨[1, 2], [1, 2], []⟩ ⟨some 1, some 2, some 10, some 11⟩).2.1 =
      ((deviceClose ⟨[1, 2], [1, 2], []⟩ ⟨some 1, some 2, some 10, some 11⟩).1,
       (deviceClose ⟨[1, 2], [1, 2], []⟩ ⟨some 1, some 2, some 10, some 11⟩).2.1,
       [])) ∧
    (deviceClose ⟨[1, 2], [1, 2], []⟩
      ⟨some 1, some 2, some 10, some 11⟩).2.1.master_fd = none ∧
    (deviceClose ⟨[1, 2], [1, 2], []⟩
      ⟨some 1, some 2, some 10, some 11⟩).2.1.slave_fd = none ∧
    (∀ p, (DeviceState.mk (some 1) (some 2) (some 10) (some 11)).device_path
        = some p →
      p ∉ (deviceClose ⟨[1, 2], [1, 2], []⟩
        ⟨some 1, some 2, some 10, some 11⟩).1.existing) ∧
    (echoCleanup (echoCleanup ⟨[5], [], [5]⟩ ⟨5, none, true⟩).1
        (echoCleanup ⟨[5], [], [5]⟩ ⟨5, none, true⟩).2.1 =
      ((echoCleanup ⟨[5], [], [5]⟩ ⟨5, none, true⟩).1,
       (echoCleanup ⟨[5], [], [5]⟩ ⟨5, none, true⟩).2.1, [])) ∧
    (List.Nodup [5] → (EchoState.mk 5 none true).device_created = true →
      (EchoState.mk 5 none true).device_path ∈ [5] →
      (EchoState.mk 5 none true).device_path ∉ ([] : List Nat) →
      (EchoState.mk 5 none true).device_path ∈ [5] →
        (EchoState.mk 5 none true).device_path ∉
          (echoCleanup ⟨[5], [], [5]⟩ ⟨5, none, true⟩).1.existing ∧
        FSOp.chmodPath (EchoState.mk 5 none true).device_path ∈
          (echoCleanup ⟨[5], [], [5]⟩ ⟨5, none, true⟩).2.2) :=
  pseudo_device_teardown_idempotent ⟨[1, 2], [1, 2], []⟩
    ⟨some 1, some 2, some 10, some 11⟩ ⟨[5], [], [5]⟩ ⟨5, none, true⟩
    (by decide)
    (by intro p hp0; injection hp0 with h1; rw [← h1]; decide)
    (by intro t ht0; injection ht0 with h1; rw [← h1]; decide)

/-- Witness for C5's registry part: peer 3 is gone from the registry and
its socket closed after the zero-length-read teardown. -/
theorem zero_length_read_is_connection_loss_witness :
    3 ∉ (handleClientTeardown [3, 4] 3).1 ∧
    (handleClientTeardown [3, 4] 3).2 = [3] :=
  zero_length_read_is_connection_loss.2.2.2.2 [3, 4] 3 (by decide) (by decide)

/-- C8: `stop()` is idempotent on both roles: applying it a second time
to the state the first call produced returns that state unchanged and
performs no close or shutdown operation, so no duplicate-close error
can surface. -/
theorem stop_idempotent :
    (∀ (fs : FS) (s : ClientBridgeState),
      clientStop (clientStop fs s).1 (clientStop fs s).2.1 =
        ((clientStop fs s).1, (clientStop fs s).2.1, [])) ∧
    (∀ t : ServerBridgeState,
      serverStop (serverStop t).1 = ((serverStop t).1, [])) := by
  constructor
  · intro fs s
    obtain ⟨r, sh, ts, vd⟩ := s
    cases ts <;> cases vd <;> rfl
  · intro t
    obtain ⟨r, sh, ss, cl, sc⟩ := t
    cases ss <;>
      rcases sc with _ | b <;>
        first
          | rfl
          | (cases b <;> rfl)

/-- C9 counterexample: with only the raw-mode `termios` configuration
failing (pty allocation, path checks and connect all fine),
`create_virtual_device` still reports success and `start` brings the
client up (`running = true`), so a raw-mode configuration failure is
not fatal at startup. -/
theorem raw_mode_failure_not_fatal :
    create_virtual_device none ⟨false, false, false, true⟩ = true ∧
    clientStart none ⟨false, false, false, true⟩ true = (true, true) := by
  decide

/-- C9 amended: a pseudo-terminal allocation failure is fatal at startup
(creation reports failure and the Bridge does not start), while a
raw-mode configuration failure is caught, logged as a warning, and
tolerated: the result of creation does not depend on it. -/
theorem pty_failure_fatal_raw_mode_tolerated (dp : Option Nat)
    (env : CreateEnv) (c : Bool) :
    (env.ptyOpenFails = true →
      create_virtual_device dp env = false ∧
      clientStart dp env c = (false, false)) ∧
    create_virtual_device dp { env with rawModeFails := true } =
      create_virtual_device dp { env with rawModeFails := false } := by
  constructor
  · intro h
    constructor
    · simp [create_virtual_device, h]
    · simp [clientStart, create_virtual_device, h]
  · obtain ⟨p1, p2, p3, p4⟩ := env
    rfl

/-- Witness for C9's amended claim: a pty allocation failure makes
creation fail and keeps the Bridge down. -/
theorem pty_failure_fatal_raw_mode_tolerated_witness :
    (CreateEnv.mk true false false false).ptyOpenFails = true ∧
    (create_virtual_device none ⟨true, false, false, false⟩ = false ∧
     clientStart none ⟨true, false, false, false⟩ true = (false, false)) :=
  ⟨rfl, (pty_failure_fatal_raw_mode_tolerated none
    ⟨true, false, false, false⟩ true).1 rfl⟩

/-- C10: every chunk `echo_handler` reads comes from
`os.read(master_fd, 1024)` and so is at most `ECHO_READ_LIMIT = 1024`
bytes; under that bound the 4096-byte truncation branch is
unreachable, and every nonempty chunk is echoed back byte-for-byte
unchanged. -/
theorem echo_chunk_echoed_unchanged (chunk : List Nat)
    (hread : chunk.length ≤ ECHO_READ_LIMIT) :
    ¬ 4096 < chunk.length ∧
    (chunk ≠ [] → echoStep chunk = some chunk) := by
  have hle : ¬ 4096 < chunk.length := by
    unfold ECHO_READ_LIMIT at hread
    omega
  refine ⟨hle, ?_⟩
  intro hne
  simp [echoStep, hne, hle]

/-- Witness for C10 on the two-byte chunk `[7, 8]`. -/
theorem echo_chunk_echoed_unchanged_witness :
    List.length [7, 8] ≤ ECHO_READ_LIMIT ∧
    (¬ 4096 < List.length [7, 8] ∧
     ([7, 8] ≠ [] → echoStep [7, 8] = some [7, 8])) :=
  ⟨by decide, echo_chunk_echoed_unchanged [7, 8] (by decide)⟩

end SerialTCP
